import Mathlib

/-!
Verification of the ThreadCraft frontend core: session store, API error
handling, progress store, and the posting pages, shallowly embedded from
the TypeScript sources under src/.
-/

namespace ThreadCraft

/-! ### Session store (src/frontend/src/store/sessionStore.ts)

The repository carries two variants of the session store: an earlier
variant with no client-side expiry check, and a later variant that keeps
an `expiresAt` timestamp and checks it in `hasValidSession`.  Timestamps
are modelled as integers (milliseconds). -/

namespace NoExpiry

structure SessionState where
  sessionId : Option String
  isConfigured : Bool
deriving DecidableEq, Repr

def setSession (_s : SessionState) (sid : String) : SessionState :=
  { sessionId := some sid, isConfigured := true }

def clearSession (_s : SessionState) : SessionState :=
  { sessionId := none, isConfigured := false }

def hasValidSession (s : SessionState) : Bool :=
  s.sessionId.isSome

end NoExpiry

namespace WithExpiry

structure SessionState where
  sessionId : Option String
  expiresAt : Option Int
  isConfigured : Bool
deriving DecidableEq, Repr

def setSession (_s : SessionState) (sid : String) (expiresAt : Int) : SessionState :=
  { sessionId := some sid, expiresAt := some expiresAt, isConfigured := true }

def clearSession (_s : SessionState) : SessionState :=
  { sessionId := none, expiresAt := none, isConfigured := false }

/-- The expiry-variant `hasValidSession`: returns the verdict together with
the store state after the call, since the source clears the store in place
when it finds the session expired (`now >= expiryDate`). -/
def hasValidSession (now : Int) (s : SessionState) : Bool × SessionState :=
  match s.sessionId, s.expiresAt with
  | some _, some e =>
      if e ≤ now then
        (false, { sessionId := none, expiresAt := none, isConfigured := false })
      else
        (true, s)
  | some _, none => (false, s)
  | none, _ => (false, s)

/-- Modelled from the spec: session creation lives in the backend, which is
not under src/.  Per the spec, the expiry policy is a configurable duration
from creation with a default of 24 hours; this models the resulting client
state after a successful create at time `t`. -/
def defaultSessionExpiryMs : Int := 86400000

/-- Modelled from the spec: the client session state right after the backend
mints a session at time `t` with the default 24-hour expiry. -/
def createSessionSpec (t : Int) (sid : String) : SessionState :=
  { sessionId := some sid, expiresAt := some (t + defaultSessionExpiryMs), isConfigured := true }

end WithExpiry

/-! ### API error handling (src/frontend/src/services/api.ts) -/

/-- The parts of an Axios error the interceptor and `getErrorMessage`
inspect: HTTP status of the response (if any), the API `error_code`, the
API `message`, and the Axios transport code. -/
structure ErrResponse where
  status : Option Nat
  errorCode : Option String
  message : Option String
  axiosCode : Option String
deriving DecidableEq, Repr

/-- The response interceptor: on a 401 whose `error_code` is
`SESSION_EXPIRED` or `NO_SESSION`, clear the session store; otherwise
leave the store untouched.  The error is re-thrown either way. -/
def interceptOnError (r : ErrResponse) (s : WithExpiry.SessionState) : WithExpiry.SessionState :=
  if r.status = some 401 ∧
      (r.errorCode = some "SESSION_EXPIRED" ∨ r.errorCode = some "NO_SESSION") then
    WithExpiry.clearSession s
  else s

/-- The error values `getErrorMessage` distinguishes: Axios errors, generic
`Error` objects, and anything else. -/
inductive ErrorInput where
  | axios (r : ErrResponse)
  | generic (msg : String)
  | unknown
deriving DecidableEq, Repr

def getErrorMessage (e : ErrorInput) : String :=
  match e with
  | .axios r =>
      match r.message with
      | some m => m
      | none =>
          if r.axiosCode = some "ECONNABORTED" then
            "The request timed out. Please check your internet connection and try again."
          else if r.axiosCode = some "ERR_NETWORK" then
            "Unable to connect to the server. Please make sure the backend is running."
          else
            match r.status with
            | some 400 => "Please check your input and try again."
            | some 401 => "Your session has expired. Please reconfigure your API keys."
            | some 403 => "You don't have permission to perform this action."
            | some 404 => "The requested resource was not found."
            | some 429 => "Too many requests. Please wait a moment and try again."
            | some 500 => "Something went wrong on our end. Please try again later."
            | _ => "An unexpected error occurred. Please try again."
  | .generic msg => msg
  | .unknown => "An unexpected error occurred. Please try again."

/-! ### API base URL normalization (src/frontend/src/services/api.ts) -/

/-- The raw configured value: `import.meta.env.VITE_API_URL || "/api"`; an
unset variable and the empty string are both falsy in JavaScript. -/
def apiUrlRaw (env : Option String) : String :=
  match env with
  | some s => if s = "" then "/api" else s
  | none => "/api"

/-- JavaScript's `String.prototype.startsWith`. -/
def strStartsWith (s p : String) : Bool :=
  List.isPrefixOf p.data s.data

/-- JavaScript's `String.prototype.endsWith`. -/
def strEndsWith (s p : String) : Bool :=
  List.isSuffixOf p.data s.data

/-- The normalization step: a value starting with `http` that does not end
with `/api` gets `/api` appended, reusing a trailing slash if present. -/
def normalizeApiUrl (u : String) : String :=
  if strStartsWith u "http" ∧ ¬ strEndsWith u "/api" then
    if strEndsWith u "/" then u ++ "api" else u ++ "/api"
  else u

def API_URL (env : Option String) : String :=
  normalizeApiUrl (apiUrlRaw env)

/-! ### Progress store (useProgressStore, zustand store embedded in the
frontend sources alongside src/frontend/src/App.tsx) -/

/-- The `ProgressData` payload of `/progress` responses
(src/frontend/src/services/api.ts). -/
structure ProgressData where
  current_day : Int
  thread_id : Option String
  has_active_thread : Bool
  next_day : Int
deriving DecidableEq, Repr

structure ProgressState where
  currentDay : Int
  threadId : Option String
  hasActiveThread : Bool
  nextDay : Int
deriving DecidableEq, Repr

def initialProgress : ProgressState :=
  { currentDay := 0, threadId := none, hasActiveThread := false, nextDay := 1 }

/-- `setProgress` copies every field of the server payload into the store,
including `next_day`. -/
def setProgress (d : ProgressData) (_s : ProgressState) : ProgressState :=
  { currentDay := d.current_day, threadId := d.thread_id,
    hasActiveThread := d.has_active_thread, nextDay := d.next_day }

def resetProgress (_s : ProgressState) : ProgressState :=
  { currentDay := 0, threadId := none, hasActiveThread := false, nextDay := 1 }

/-! ### Remote call outcomes

An API call either resolves with `success: true` and a data payload,
resolves with `success: false` (or a missing payload), or throws. -/

inductive RemoteResult (α : Type) where
  | ok (data : α)
  | fail (msg : Option String)
  | exn (e : ErrorInput)
deriving DecidableEq, Repr

/-! ### Post Solution page (src/frontend/src/pages/PostSolutionPage.tsx) -/

def MAX_CHARS : Nat := 280

/-- The tweet template of the preview effect:
`Day ${nextDay}\n\n${problem_name}\n\n${gist_url}`. -/
def buildTweetText (nextDay : Int) (problemName gistUrl : String) : String :=
  "Day " ++ toString nextDay ++ "\n\n" ++ problemName ++ "\n\n" ++ gistUrl

structure Preview where
  text : String
  charCount : Nat
  isValid : Bool
deriving DecidableEq, Repr

/-- The preview effect: with both fields non-empty it builds the templated
text, its character count, and the 280-unit validity flag; otherwise the
preview is `null`. -/
def mkPreview (nextDay : Int) (gistUrl problemName : String) : Option Preview :=
  if gistUrl ≠ "" ∧ problemName ≠ "" then
    let text := buildTweetText nextDay problemName gistUrl
    some { text := text, charCount := text.length,
           isValid := decide (text.length ≤ MAX_CHARS) }
  else none

/-- The submit button is `disabled={!preview?.isValid}`, so a submission
(and with it the remote `postSolution` call) can only be issued when the
preview exists and is valid. -/
def submitAllowed (nextDay : Int) (gistUrl problemName : String) : Bool :=
  match mkPreview nextDay gistUrl problemName with
  | some pv => pv.isValid
  | none => false

structure PostData where
  tweet_url : String
  day : Option Int
deriving DecidableEq, Repr

/-- `handleSubmit` of the Post Solution page as a transition on the
progress store: without an active thread it returns early (no call); on a
successful post it refreshes the store from `/progress` (when that call
succeeds); on a failed or throwing post it only shows a toast, leaving the
store untouched.  The boolean records whether the page entered its
"posted" success state. -/
def handleSubmit (hasActiveThread : Bool) (postOutcome : RemoteResult PostData)
    (progressOutcome : RemoteResult ProgressData) (s : ProgressState) :
    ProgressState × Bool :=
  if hasActiveThread then
    match postOutcome with
    | .ok _ =>
        match progressOutcome with
        | .ok d => (setProgress d s, true)
        | _ => (s, true)
    | _ => (s, false)
  else (s, false)

/-! ### Start Thread page (src/frontend/src/pages/StartThreadPage.tsx) -/

/-- JavaScript's `String.prototype.trim`: strip leading and trailing
whitespace. -/
def jsTrim (s : String) : String :=
  String.mk
    (List.reverse (List.dropWhile Char.isWhitespace
      (List.reverse (List.dropWhile Char.isWhitespace s.data))))

/-- The Mantine form validator for `intro_text`: a value whose trim is
empty (`!value.trim()`) is "required"; a value longer than 280 is too
long; anything else passes (`null`). -/
def validateIntroText (v : String) : Option String :=
  if jsTrim v = "" then some "Introduction text is required"
  else if v.length > MAX_CHARS then some "Text must be 280 characters or less"
  else none

/-- `form.onSubmit` runs the validator and only reaches the submit handler
(and with it the remote `startThread` call) when validation passes. -/
def startThreadAccepts (v : String) : Bool :=
  (validateIntroText v).isNone

/-- The button-enabling check of the page:
`isValidLength = charCount <= MAX_CHARS && charCount > 0`. -/
def isValidLength (v : String) : Bool :=
  decide (v.length ≤ MAX_CHARS) && decide (v.length > 0)

/-! ### Home page day adjustment (the `handleUpdateDay` handler of the
HomePage variant under src/unnamed/part_001) -/

/-- `handleUpdateDay`: an empty input is rejected locally; a negative day
is rejected locally ("Day number must be 0 or greater"); otherwise the
remote `updateProgress` call is issued and, on success, the store is
refreshed from the response.  The boolean records whether a remote call
was issued. -/
def handleUpdateDay (adjustDay : Option Int)
    (remote : Int → RemoteResult ProgressData) (s : ProgressState) :
    ProgressState × Bool :=
  match adjustDay with
  | none => (s, false)
  | some d =>
      if d < 0 then (s, false)
      else
        match remote d with
        | .ok data => (setProgress data s, true)
        | _ => (s, true)

/-- Modelled from the spec: the backend behind `apiService.updateProgress`
(the `setDay` operation) is not under src/.  Per the spec it rejects
nothing non-negative, sets `currentDay` to the given day, and the progress
payload always derives `next_day = current_day + 1`. -/
def updateProgressSpec (threadId : Option String) (hasThread : Bool)
    (d : Int) : RemoteResult ProgressData :=
  .ok { current_day := d, thread_id := threadId,
        has_active_thread := hasThread, next_day := d + 1 }

/-! ### Credential vault (spec-modelled)

The vault lives in the backend, which is not under src/; only its storage
schema (src/unnamed/part_003, the `threadcraft_users` table keyed by
`user_identifier_hash`) is in the repository. -/

/-- Modelled from the spec: `identifierHash = SHA-256(handle || serverSalt)`;
the digest is abstracted as a deterministic function of handle and salt. -/
def identifierHashSpec (handle salt : String) : String :=
  handle ++ "#" ++ salt

/-- A vault is the rows of the user table: identifier hash paired with the
encrypted record blob. -/
def Vault : Type := List (String × String)

/-- Modelled from the spec: `destroy(handle)` removes all vault data for
the derived identifier hash. -/
def destroySpec (v : Vault) (handle salt : String) : Vault :=
  List.filter (fun r => r.1 ≠ identifierHashSpec handle salt) v

/-- Modelled from the spec: `load(handle)` looks the encrypted record up
by the derived identifier hash and fails (`none`) when no row exists. -/
def loadSpec (v : Vault) (handle salt : String) : Option String :=
  Option.map Prod.snd (List.find? (fun r => r.1 = identifierHashSpec handle salt) v)

/-! ## Theorems -/

/-- C1: on the Post Solution page, the progress store (and with it the
displayed `currentDay`) is updated only after the remote post call has
returned success; a failed or throwing `postSolution` call leaves the
store unchanged and the page out of its posted state, so the operation
can be retried. -/
theorem c1_failed_post_leaves_currentDay_unchanged
    (hasThread : Bool) (po : RemoteResult PostData) (pr : RemoteResult ProgressData)
    (s : ProgressState) (h : ∀ d, po ≠ RemoteResult.ok d) :
    handleSubmit hasThread po pr s = (s, false) := by
  cases po with
  | ok d => exact absurd rfl (h d)
  | fail m => cases hasThread <;> rfl
  | exn e => cases hasThread <;> rfl

theorem c1_witness :
    (∀ d, (RemoteResult.fail none : RemoteResult PostData) ≠ RemoteResult.ok d) ∧
    handleSubmit true (RemoteResult.fail none)
      (RemoteResult.ok { current_day := 1, thread_id := some "t", has_active_thread := true, next_day := 2 })
      initialProgress = (initialProgress, false) :=
  ⟨(fun _ h => nomatch h),
   c1_failed_post_leaves_currentDay_unchanged true (RemoteResult.fail none)
     (RemoteResult.ok { current_day := 1, thread_id := some "t", has_active_thread := true, next_day := 2 })
     initialProgress (fun _ h => nomatch h)⟩

/-- C2: the Post Solution preview builds the tweet from the fixed template
embedding the next day (equal to `currentDay + 1` when the store satisfies
the derivation invariant), the problem name and the gist link; whenever
the constructed text exceeds 280 units the preview is invalid and the
submit button is disabled, so no remote call is issued. -/
theorem c2_overlong_text_blocks_post
    (s : ProgressState) (g p : String)
    (hnd : s.nextDay = s.currentDay + 1) (hg : g ≠ "") (hp : p ≠ "")
    (hlen : MAX_CHARS < (buildTweetText s.nextDay p g).length) :
    (∃ pv, mkPreview s.nextDay g p = some pv ∧
        pv.text = buildTweetText (s.currentDay + 1) p g ∧
        pv.isValid = false) ∧
    submitAllowed s.nextDay g p = false := by
  have hval : decide ((buildTweetText s.nextDay p g).length ≤ MAX_CHARS) = false :=
    decide_eq_false (Nat.not_le.mpr hlen)
  have hpv : mkPreview s.nextDay g p =
      some { text := buildTweetText s.nextDay p g,
             charCount := (buildTweetText s.nextDay p g).length,
             isValid := decide ((buildTweetText s.nextDay p g).length ≤ MAX_CHARS) } := by
    unfold mkPreview
    rw [if_pos ⟨hg, hp⟩]
  refine ⟨⟨_, hpv, ?_, hval⟩, ?_⟩
  · show buildTweetText s.nextDay p g = buildTweetText (s.currentDay + 1) p g
    rw [hnd]
  · unfold submitAllowed
    rw [hpv]
    exact hval

set_option maxRecDepth 100000 in
theorem c2_witness :
    initialProgress.nextDay = initialProgress.currentDay + 1 ∧
    String.mk (List.replicate 280 'a') ≠ "" ∧
    ("A" : String) ≠ "" ∧
    MAX_CHARS < (buildTweetText initialProgress.nextDay "A" (String.mk (List.replicate 280 'a'))).length ∧
    ((∃ pv, mkPreview initialProgress.nextDay (String.mk (List.replicate 280 'a')) "A" = some pv ∧
        pv.text = buildTweetText (initialProgress.currentDay + 1) "A" (String.mk (List.replicate 280 'a')) ∧
        pv.isValid = false) ∧
      submitAllowed initialProgress.nextDay (String.mk (List.replicate 280 'a')) "A" = false) :=
  ⟨by decide, by decide, by decide, by decide,
   c2_overlong_text_blocks_post initialProgress (String.mk (List.replicate 280 'a')) "A"
     (by decide) (by decide) (by decide) (by decide)⟩

/-- C3 counterexample: the single space has length 1 (between 1 and 280
and not the empty string), yet the Start Thread intro validator rejects
it, because the source tests `!value.trim()` rather than emptiness of the
raw value. -/
theorem c3_counterexample :
    (" " : String) ≠ "" ∧ 1 ≤ (" " : String).length ∧ (" " : String).length ≤ MAX_CHARS ∧
    startThreadAccepts " " = false := by
  refine ⟨by decide, by decide, by decide, ?_⟩
  decide

/-- C3 (amended): the Start Thread intro validation passes exactly when
the text does not trim to the empty string and has length at most 280;
in particular whitespace-only texts of length 1 to 280 are rejected. -/
theorem c3_amended_validation_characterization (v : String) :
    startThreadAccepts v = true ↔ (jsTrim v ≠ "" ∧ v.length ≤ MAX_CHARS) := by
  unfold startThreadAccepts validateIntroText
  by_cases h1 : jsTrim v = ""
  · simp [h1]
  · by_cases h2 : v.length > MAX_CHARS
    · simp [h1, h2, Nat.not_le.mpr h2]
    · simp [h1, h2, Nat.not_lt.mp h2]

/-- C4 counterexample: the progress store keeps `nextDay` as its own
stored field, copied verbatim from the server payload; `setProgress` with
a payload whose `next_day` is not `current_day + 1` produces a progress
state violating `nextDay = currentDay + 1`. -/
theorem c4_counterexample :
    (setProgress { current_day := 0, thread_id := none, has_active_thread := true, next_day := 5 }
        initialProgress).nextDay ≠
      (setProgress { current_day := 0, thread_id := none, has_active_thread := true, next_day := 5 }
        initialProgress).currentDay + 1 := by
  decide

/-- C4 (amended): the client progress store stores `nextDay` directly,
copied from the server payload; the invariant `nextDay = currentDay + 1`
holds in the initial state, after `resetProgress`, and after any
`setProgress` whose payload satisfies `next_day = current_day + 1`. -/
theorem c4_amended_next_day_invariant (d : ProgressData) (s t : ProgressState)
    (h : d.next_day = d.current_day + 1) :
    initialProgress.nextDay = initialProgress.currentDay + 1 ∧
    (resetProgress t).nextDay = (resetProgress t).currentDay + 1 ∧
    (setProgress d s).nextDay = (setProgress d s).currentDay + 1 := by
  exact ⟨rfl, rfl, h⟩

theorem c4_witness :
    ({ current_day := 3, thread_id := none, has_active_thread := true, next_day := 4 } : ProgressData).next_day =
      ({ current_day := 3, thread_id := none, has_active_thread := true, next_day := 4 } : ProgressData).current_day + 1 ∧
    (initialProgress.nextDay = initialProgress.currentDay + 1 ∧
      (resetProgress initialProgress).nextDay = (resetProgress initialProgress).currentDay + 1 ∧
      (setProgress { current_day := 3, thread_id := none, has_active_thread := true, next_day := 4 }
          initialProgress).nextDay =
        (setProgress { current_day := 3, thread_id := none, has_active_thread := true, next_day := 4 }
          initialProgress).currentDay + 1) :=
  ⟨by decide,
   c4_amended_next_day_invariant
     { current_day := 3, thread_id := none, has_active_thread := true, next_day := 4 }
     initialProgress initialProgress (by decide)⟩

/-- C5: in the expiry-variant session store, once `now >= expiresAt` the
handle is treated as destroyed: validation reports it invalid and clears
the stored handle, so every later validation is also invalid; a session
created with the (spec-modelled) default 24-hour expiry is invalid at any
time at least 24 hours after creation. -/
theorem c5_expiry_is_permanent
    (s : WithExpiry.SessionState) (now later e t0 n2 : Int) (sid : String)
    (hexp : s.expiresAt = some e) (hnow : e ≤ now)
    (h24 : t0 + WithExpiry.defaultSessionExpiryMs ≤ n2) :
    (WithExpiry.hasValidSession now s).1 = false ∧
    (WithExpiry.hasValidSession later (WithExpiry.hasValidSession now s).2).1 = false ∧
    (WithExpiry.hasValidSession n2 (WithExpiry.createSessionSpec t0 sid)).1 = false := by
  obtain ⟨sid?, exp?, cfg⟩ := s
  cases hexp
  refine ⟨?_, ?_, ?_⟩
  · cases sid? <;> simp [WithExpiry.hasValidSession, hnow]
  · cases sid? <;> simp [WithExpiry.hasValidSession, hnow]
  · simp [WithExpiry.hasValidSession, WithExpiry.createSessionSpec, h24]

theorem c5_witness :
    ({ sessionId := some "h", expiresAt := some 10, isConfigured := true } :
        WithExpiry.SessionState).expiresAt = some 10 ∧
    (10 : Int) ≤ 10 ∧
    (0 : Int) + WithExpiry.defaultSessionExpiryMs ≤ 86400000 ∧
    ((WithExpiry.hasValidSession 10
        { sessionId := some "h", expiresAt := some 10, isConfigured := true }).1 = false ∧
      (WithExpiry.hasValidSession 99
        (WithExpiry.hasValidSession 10
          { sessionId := some "h", expiresAt := some 10, isConfigured := true }).2).1 = false ∧
      (WithExpiry.hasValidSession 86400000 (WithExpiry.createSessionSpec 0 "x")).1 = false) :=
  ⟨rfl, by decide, by decide,
   c5_expiry_is_permanent
     { sessionId := some "h", expiresAt := some 10, isConfigured := true }
     10 99 10 0 86400000 "x" rfl (by decide) (by decide)⟩

/-- C6 counterexample: validating an expired session is not
state-preserving: the expiry-variant `hasValidSession` clears the stored
session as a side effect, so the state after the call differs from the
state before it. -/
theorem c6_counterexample :
    (WithExpiry.hasValidSession 1
        { sessionId := some "sid", expiresAt := some 0, isConfigured := true }).2 ≠
      { sessionId := some "sid", expiresAt := some 0, isConfigured := true } := by
  decide

/-- C6 (amended): the expiry-variant validation leaves the stored state
unchanged except when it finds the session expired, in which case it
reports invalid and clears the session (the same state `clearSession`
produces). -/
theorem c6_amended_validation_frame (s : WithExpiry.SessionState) (now : Int) :
    (WithExpiry.hasValidSession now s).2 = s ∨
    ((WithExpiry.hasValidSession now s).1 = false ∧
      (WithExpiry.hasValidSession now s).2 = WithExpiry.clearSession s) := by
  obtain ⟨sid?, exp?, cfg⟩ := s
  cases sid? <;> cases exp? <;>
    simp [WithExpiry.hasValidSession, WithExpiry.clearSession]
  case some.some sid e =>
    by_cases h : e ≤ now <;> simp [h]

/-- C7: the frontend treats an expired session exactly like a missing one:
for a 401 response, the interceptor's effect on the session store and the
message `getErrorMessage` surfaces are identical for the
`SESSION_EXPIRED` and `NO_SESSION` error codes (both clear the session),
for every response message and transport code. -/
theorem c7_expired_indistinguishable_from_missing
    (m ax : Option String) (s : WithExpiry.SessionState) :
    interceptOnError
        { status := some 401, errorCode := some "SESSION_EXPIRED", message := m, axiosCode := ax } s =
      interceptOnError
        { status := some 401, errorCode := some "NO_SESSION", message := m, axiosCode := ax } s ∧
    getErrorMessage (.axios
        { status := some 401, errorCode := some "SESSION_EXPIRED", message := m, axiosCode := ax }) =
      getErrorMessage (.axios
        { status := some 401, errorCode := some "NO_SESSION", message := m, axiosCode := ax }) ∧
    interceptOnError
        { status := some 401, errorCode := some "SESSION_EXPIRED", message := m, axiosCode := ax } s =
      WithExpiry.clearSession s := by
  refine ⟨?_, rfl, ?_⟩ <;> simp [interceptOnError]

/-- C8: destroying a session is idempotent and always succeeds, in both
session-store variants; after destruction, validation reports the session
invalid, and (in the spec-modelled vault) destroying removes every row
for the derived identifier hash, a second destroy is a no-op, and loading
after destroy fails. -/
theorem c8_destroy_idempotent_and_final
    (s : WithExpiry.SessionState) (sne : NoExpiry.SessionState) (now : Int)
    (v : Vault) (handle salt : String) :
    WithExpiry.clearSession (WithExpiry.clearSession s) = WithExpiry.clearSession s ∧
    NoExpiry.clearSession (NoExpiry.clearSession sne) = NoExpiry.clearSession sne ∧
    (WithExpiry.hasValidSession now (WithExpiry.clearSession s)).1 = false ∧
    NoExpiry.hasValidSession (NoExpiry.clearSession sne) = false ∧
    destroySpec (destroySpec v handle salt) handle salt = destroySpec v handle salt ∧
    loadSpec (destroySpec v handle salt) handle salt = none := by
  refine ⟨rfl, rfl, rfl, rfl, ?_, ?_⟩
  · unfold destroySpec
    induction v with
    | nil => rfl
    | cons a t ih =>
        by_cases h : a.1 = identifierHashSpec handle salt <;>
          simp [List.filter, h, ih]
  · unfold destroySpec loadSpec
    induction v with
    | nil => rfl
    | cons a t ih =>
        by_cases h : a.1 = identifierHashSpec handle salt <;>
          simp [List.filter, List.find?, h, ih]

/-- C9: the day-adjustment handler rejects every negative day locally
(no remote call, store unchanged) and submits every non-negative day;
with the spec-modelled `updateProgress` backend, adjusting to day 5
yields `currentDay = 5`, `nextDay = 6`, and the next post's tweet text
starts with "Day 6". -/
theorem c9_setDay_validation_and_scenario
    (s : ProgressState) (d d2 : Int) (tid : Option String) (ht : Bool)
    (remote : Int → RemoteResult ProgressData)
    (hneg : d < 0) (hpos : 0 ≤ d2) :
    handleUpdateDay (some d) remote s = (s, false) ∧
    (handleUpdateDay (some d2) (updateProgressSpec tid ht) s).2 = true ∧
    (handleUpdateDay (some 5) (updateProgressSpec tid ht) s).1.currentDay = 5 ∧
    (handleUpdateDay (some 5) (updateProgressSpec tid ht) s).1.nextDay = 6 ∧
    buildTweetText (handleUpdateDay (some 5) (updateProgressSpec tid ht) s).1.nextDay "P" "G" =
      "Day 6\n\nP\n\nG" := by
  refine ⟨?_, ?_, ?_, ?_, ?_⟩
  · simp [handleUpdateDay, hneg]
  · simp [handleUpdateDay, updateProgressSpec, Int.not_lt.mpr hpos]
  · simp [handleUpdateDay, updateProgressSpec, setProgress]
  · simp [handleUpdateDay, updateProgressSpec, setProgress]
  · have h6 : (handleUpdateDay (some 5) (updateProgressSpec tid ht) s).1.nextDay = 6 := by
      simp [handleUpdateDay, updateProgressSpec, setProgress]
    rw [h6]
    rfl

theorem c9_witness :
    (-1 : Int) < 0 ∧ (0 : Int) ≤ 0 ∧
    (handleUpdateDay (some (-1)) (updateProgressSpec (some "123") true) initialProgress =
        (initialProgress, false) ∧
      (handleUpdateDay (some 0) (updateProgressSpec (some "123") true) initialProgress).2 = true ∧
      (handleUpdateDay (some 5) (updateProgressSpec (some "123") true) initialProgress).1.currentDay = 5 ∧
      (handleUpdateDay (some 5) (updateProgressSpec (some "123") true) initialProgress).1.nextDay = 6 ∧
      buildTweetText
          (handleUpdateDay (some 5) (updateProgressSpec (some "123") true) initialProgress).1.nextDay
          "P" "G" = "Day 6\n\nP\n\nG") :=
  ⟨by decide, by decide,
   c9_setDay_validation_and_scenario initialProgress (-1) 0 (some "123") true
     (updateProgressSpec (some "123") true) (by decide) (by decide)⟩

/-- C10: the API base URL defaults to "/api" when `VITE_API_URL` is unset
or empty; a configured value that starts with "http" and does not already
end with "/api" gets "/api" appended, reusing a trailing slash when one
is present; every other configured value is used unchanged. -/
theorem c10_api_url_normalization (u : String) :
    API_URL none = "/api" ∧
    API_URL (some "") = "/api" ∧
    (if strStartsWith u "http" ∧ ¬ strEndsWith u "/api" then
        API_URL (some u) = (if strEndsWith u "/" then u ++ "api" else u ++ "/api")
      else u = "" ∨ API_URL (some u) = u) := by
  refine ⟨by decide, by decide, ?_⟩
  by_cases he : u = ""
  · subst he
    decide
  · have hraw : apiUrlRaw (some u) = u := by simp [apiUrlRaw, he]
    by_cases h1 : strStartsWith u "http" ∧ ¬ strEndsWith u "/api"
    · rw [if_pos h1]
      unfold API_URL
      rw [hraw]
      unfold normalizeApiUrl
      rw [if_pos h1]
    · rw [if_neg h1]
      refine Or.inr ?_
      unfold API_URL
      rw [hraw]
      unfold normalizeApiUrl
      rw [if_neg h1]

end ThreadCraft
